import Mathlib

/-!
Verification development for the trading-bot repository.

Shallow embedding of the parts of the code base exercised by the claims:

* `src/indicators/heikin_ashi.py`     — Heikin-Ashi transform and candle colors
* `src/core/signal_service.py`        — two-step RSI + HA signal state machine
* `src/trading_bot.py`                — kline-message handler (candle-close pipeline)
* `src/core/all_or_nothing_service.py`— candle history, retry, protective orders,
                                        trailing stop
* `src/core/cascade_service.py`       — cascade alternation and TP-execution reset
* `src/core/one_or_more_service.py`   — one-or-more teardown
* `src/core/tp_service.py`            — TP execution cleanup
* `src/core/trading_service.py`       — quantity / price formatting
* `src/api/binance_client.py`         — exchange gateway method surface

Numeric values are modelled as rationals (`ℚ`); Python `Decimal` values keep
their exponent in an explicit `DecimalRep` record.  Exchange I/O is modelled by
passing the exchange answers (order-placement results, position lists) as
explicit parameters and by returning the list of requests (cancellations,
market closes) a code path emits.
-/

namespace TradingBot

/-! ### Shared order vocabulary -/

/-- Binance order side (`side` parameter, `BUY`/`SELL`). -/
inductive OrderSide
  | buy
  | sell
deriving DecidableEq

/-- Binance hedge-mode position side (`positionSide`, `LONG`/`SHORT`). -/
inductive PositionSide
  | long
  | short
deriving DecidableEq

/-- One entry of the list returned by `BinanceAPIClient.get_position_info`:
`positionSide` and the signed `positionAmt`. -/
structure ExchangePosition where
  position_side : PositionSide
  position_amt : ℚ
deriving DecidableEq

/-- A request sent to the exchange by a teardown / reset code path. -/
inductive ExchangeAction
  | cancel (order_id : ℕ)
  | market_close (side : OrderSide) (position_side : PositionSide) (quantity : ℚ)
deriving DecidableEq

/-! ### Heikin-Ashi (`src/indicators/heikin_ashi.py`) -/

/-- One input row of `HeikinAshi.compute` (columns `open`, `high`, `low`,
`close`; `open` is spelled `open_` because `open` is a Lean keyword). -/
structure Candle where
  open_ : ℚ
  high : ℚ
  low : ℚ
  close : ℚ
deriving DecidableEq

/-- One output row of `HeikinAshi.compute` (columns `HA_open`, `HA_high`,
`HA_low`, `HA_close`). -/
structure HACandle where
  HA_open : ℚ
  HA_high : ℚ
  HA_low : ℚ
  HA_close : ℚ
deriving DecidableEq

/-- the HA_close column: the mean of the open, high, low and close columns. -/
def ha_close_of (c : Candle) : ℚ := (c.open_ + c.high + c.low + c.close) / 4

/-- Assemble one Heikin-Ashi row from the raw candle and the already computed
`HA_open` / `HA_close` values:
`HA_high = max(HA_open, HA_close, high)`, `HA_low = min(HA_open, HA_close, low)`. -/
def mkHACandle (c : Candle) (ho hc : ℚ) : HACandle :=
  { HA_open := ho
    HA_high := max (max ho hc) c.high
    HA_low := min (min ho hc) c.low
    HA_close := hc }

/-- The sequential `HA_open` loop of `HeikinAshi.compute`: each row has
`HA_open` equal to is `(prev_ha_open + prev_ha_close) / 2` where the previous values
are carried through the recursion. -/
def computeAux (prev_ha_open prev_ha_close : ℚ) : List Candle → List HACandle
  | [] => []
  | c :: rest =>
      let ho := (prev_ha_open + prev_ha_close) / 2
      let hc := ha_close_of c
      mkHACandle c ho hc :: computeAux ho hc rest

/-- `HeikinAshi.compute`.  The first row uses
`first_ha_open = (open[0] + close[0]) / 2`, which is obtained by seeding the
carried pair with `(open[0], close[0])`; every later row follows the
`(ha_open[i-1] + HA_close[i-1]) / 2` recurrence. -/
def compute : List Candle → List HACandle
  | [] => []
  | c :: rest => computeAux c.open_ c.close (c :: rest)

/-- Candle color (green, red, doji strings). -/
inductive CandleColor
  | green
  | red
  | doji
deriving DecidableEq

/-- `HeikinAshi.get_candle_color`. -/
def get_candle_color (ha_open ha_close : ℚ) : CandleColor :=
  if ha_close > ha_open then .green
  else if ha_close < ha_open then .red
  else .doji

/-! ### Signal service (`src/core/signal_service.py`) -/

/-- `SignalState` enum. -/
inductive SignalState
  | waiting
  | rsi_condition_met
  | signal_confirmed
deriving DecidableEq

/-- `SignalType` enum. -/
inductive SignalType
  | long
  | short
deriving DecidableEq

/-- The RSI data the service reads for one configured period: the computed
value (`none` when the period is missing from the dict or its value is
`None`) plus the per-period `OVERSOLD` / `OVERBOUGHT` thresholds from
`config.SIGNAL_CONFIG["RSI_THRESHOLDS"]`. -/
structure RSIPeriodData where
  value : Option ℚ
  oversold : ℚ
  overbought : ℚ
deriving DecidableEq

/-- The `ha_data` dict: its `"color"` entry. -/
structure HAData where
  color : Option CandleColor
deriving DecidableEq

/-- The dict built in `_handle_rsi_condition_met_state` when a signal is
confirmed (the bookkeeping fields that live in the service state). -/
structure ConfirmedSignal where
  type : SignalType
  ha_color : Option CandleColor
  volume : Option ℚ
  volume_validated : Bool
deriving DecidableEq

/-- Mutable state of `SignalService`, together with the configuration it
reads (`VOLUME_VALIDATION.ENABLED`, `VOLUME_VALIDATION.LOOKBACK_CANDLES`). -/
structure SignalServiceState where
  current_state : SignalState
  pending_signal_type : Option SignalType
  confirmed_signal : Option ConfirmedSignal
  volume_validation_enabled : Bool
  volume_lookback_candles : ℕ
  volume_history : List ℚ
deriving DecidableEq

/-- `SignalService._check_rsi_oversold_condition`: every configured period must
be present, not `None`, and not above its oversold threshold. -/
def check_rsi_oversold_condition (rsi_data : List RSIPeriodData) : Bool :=
  rsi_data.all fun p =>
    match p.value with
    | none => false
    | some v => decide (v ≤ p.oversold)

/-- `SignalService._check_rsi_overbought_condition`. -/
def check_rsi_overbought_condition (rsi_data : List RSIPeriodData) : Bool :=
  rsi_data.all fun p =>
    match p.value with
    | none => false
    | some v => decide (p.overbought ≤ v)

/-- `SignalService._check_ha_confirmation`: a pending LONG needs a green HA
close, a pending SHORT a red one; anything else yields `none`. -/
def check_ha_confirmation (pending : Option SignalType) (ha : HAData) : Option SignalType :=
  match pending, ha.color with
  | some .long, some .green => some .long
  | some .short, some .red => some .short
  | _, _ => none

/-- `SignalService._validate_volume_condition`: enabled and with enough history,
the confirming volume must exceed the mean of the previous volumes
(`list(self.volume_history)[:-1]`). -/
def validate_volume_condition (s : SignalServiceState) (current_volume : ℚ) : Bool :=
  if ¬ s.volume_validation_enabled then true
  else if s.volume_history.length < s.volume_lookback_candles then true
  else
    let previous_volumes := s.volume_history.dropLast
    if previous_volumes.isEmpty then true
    else decide (previous_volumes.sum / previous_volumes.length < current_volume)

/-- `SignalService._handle_waiting_state`: an all-oversold reading arms a
pending LONG, an all-overbought one a pending SHORT; either way no signal is
returned yet. -/
def handle_waiting_state (s : SignalServiceState) (rsi_data : List RSIPeriodData) :
    SignalServiceState × Option ConfirmedSignal :=
  if check_rsi_oversold_condition rsi_data then
    ({ s with current_state := .rsi_condition_met, pending_signal_type := some .long }, none)
  else if check_rsi_overbought_condition rsi_data then
    ({ s with current_state := .rsi_condition_met, pending_signal_type := some .short }, none)
  else (s, none)

/-- `SignalService._handle_rsi_condition_met_state`: on a confirming HA color
(and a passing volume check when a volume is supplied) the signal is latched
and returned; otherwise the state is returned unchanged. -/
def handle_rsi_condition_met_state (s : SignalServiceState) (ha : HAData)
    (current_volume : Option ℚ) : SignalServiceState × Option ConfirmedSignal :=
  match check_ha_confirmation s.pending_signal_type ha with
  | none => (s, none)
  | some t =>
      let volume_rejected :=
        match current_volume with
        | some v => ! validate_volume_condition s v
        | none => false
      if volume_rejected then (s, none)
      else
        let sig : ConfirmedSignal :=
          { type := t
            ha_color := ha.color
            volume := current_volume
            volume_validated := s.volume_validation_enabled ∧ current_volume.isSome }
        ({ s with current_state := .signal_confirmed, confirmed_signal := some sig }, some sig)

/-- `SignalService.process_market_data`.  `cascade_active` is
`cascade_service.is_cascade_active()`, `tp_active` is
`_are_tp_orders_active()`; `none` / empty inputs model falsy `rsi_data` /
`ha_data` dicts. -/
def process_market_data (cascade_active tp_active : Bool)
    (rsi_data : Option (List RSIPeriodData)) (ha_data : Option HAData)
    (current_volume : Option ℚ) (s : SignalServiceState) :
    SignalServiceState × Option ConfirmedSignal :=
  if cascade_active then (s, none)
  else if tp_active then (s, none)
  else
    match rsi_data, ha_data with
    | some rsi, some ha =>
        if rsi.isEmpty then (s, none)
        else
          match s.current_state with
          | .waiting => handle_waiting_state s rsi
          | .rsi_condition_met => handle_rsi_condition_met_state s ha current_volume
          | .signal_confirmed => (s, s.confirmed_signal)
    | _, _ => (s, none)

/-- `SignalService.reset_signal`. -/
def reset_signal (s : SignalServiceState) : SignalServiceState :=
  { s with current_state := .waiting, pending_signal_type := none, confirmed_signal := none }

/-! ### Kline-message handler (`src/trading_bot.py`) -/

/-- The `k` payload of a kline WebSocket message: `t` (open time), `x`
(close flag) and the price / volume fields the pipeline reads. -/
structure KlineData where
  open_time : ℕ
  is_closed : Bool
  high : ℚ
  low : ℚ
  close : ℚ
  volume : ℚ
deriving DecidableEq

/-- The downstream state `BinanceTradingBot._handle_kline_message` drives:
the signal-service state plus a count of the entry orders placed via
`_execute_trade` (each confirmed signal triggers exactly one trade
execution). -/
structure BotState where
  signal_service : SignalServiceState
  orders_placed : ℕ
deriving DecidableEq

/-- `BinanceTradingBot._handle_kline_message` as a state transformer.  On a
closed candle it recomputes RSI and HA from the exchange candle data
(passed here as `rsi_data` / `ha_data`; rerequesting them for the same closed
candle returns the same values) and runs `_process_signal_detection`: the
signal state machine, followed — when a signal is confirmed — by trade
execution and `reset_signal`.  Note that `msg.open_time` is never consulted
and no record of already-processed candles is kept. -/
def handle_kline_message (cascade_active tp_active : Bool)
    (rsi_data : Option (List RSIPeriodData)) (ha_data : Option HAData)
    (msg : KlineData) (b : BotState) : BotState :=
  if msg.is_closed then
    let r := process_market_data cascade_active tp_active rsi_data ha_data none b.signal_service
    match r.2 with
    | some _ => { signal_service := reset_signal r.1, orders_placed := b.orders_placed + 1 }
    | none => { b with signal_service := r.1 }
  else b

/-! ### Candle history (`src/core/all_or_nothing_service.py`) -/

/-- The candle dict fed to `AllOrNothingService.update_candle_history`
(`high`, `low`, `close`, `volume`). -/
structure CandleHLCV where
  high : ℚ
  low : ℚ
  close : ℚ
  volume : ℚ
deriving DecidableEq

/-- `AllOrNothingService.update_candle_history`: append the candle, then keep
only the last `SL_LOOKBACK_CANDLES + 1` entries. -/
def update_candle_history (sl_lookback_candles : ℕ) (history : List CandleHLCV)
    (candle : CandleHLCV) : List CandleHLCV :=
  let h := history ++ [candle]
  let max_candles := sl_lookback_candles + 1
  if max_candles < h.length then h.drop (h.length - max_candles) else h

/-! ### Quantity and price formatting (`src/core/trading_service.py`) -/

/-- A decimal number as Python `Decimal(str(x))` sees it: the value is
`mant / 10 ^ dp`, and `dp` (the negated exponent of the decimal
representation) is the digit count after the decimal point — e.g. `0.001` is
`⟨1, 3⟩`, `0.5` is `⟨5, 1⟩`, `1.0` (the `str` of the float `1.0`) is
`⟨10, 1⟩`. -/
structure DecimalRep where
  mant : ℤ
  dp : ℕ
deriving DecidableEq

/-- Numeric value of a decimal representation. -/
def DecimalRep.val (d : DecimalRep) : ℚ := (d.mant : ℚ) / 10 ^ d.dp

/-- Truncation toward zero, the `ROUND_DOWN` mode of Python `Decimal`. -/
def truncQ (x : ℚ) : ℤ := x.num.tdiv x.den

/-- `Decimal.quantize(step, rounding=ROUND_DOWN)`: round toward zero so that
exactly `dp` digits remain after the decimal point.  Only the *exponent* of
the quantize template matters, not its value. -/
def quantize_down (x : ℚ) (dp : ℕ) : ℚ := (truncQ (x * 10 ^ dp) : ℚ) / 10 ^ dp

/-- Numeric value of the string returned by `TradingService._format_quantity`
(the `rstrip` of trailing zeros does not change the value; a zero step size
returns the string `"0"`). -/
def format_quantity (quantity : ℚ) (step_size : DecimalRep) : ℚ :=
  if step_size.val = 0 then 0 else quantize_down quantity step_size.dp

/-- Numeric value of the string returned by `TradingService._format_price`.
The `tick_size == 0` fallback renders the raw float with two decimals and is
modelled as `none` (the claims only concern positive tick sizes). -/
def format_price (price : ℚ) (tick_size : DecimalRep) : Option ℚ :=
  if tick_size.val = 0 then none else some (quantize_down price tick_size.dp)

/-- Modelled from the spec: rounding a value down (toward zero) onto the grid
of integer multiples of `s`.  This is the behaviour the specification ascribes
to the formatting functions; it is compared against `format_quantity` /
`format_price` above. -/
def grid_round_down (x s : ℚ) : ℚ := s * (truncQ (x / s) : ℚ)

/-! ### Cascade service (`src/core/cascade_service.py`) -/

/-- `CascadeState` enum. -/
inductive CascadeState
  | inactive
  | waiting_hedge
  | active
  | stopped
deriving DecidableEq

/-- The per-process state of `CascadeService` (the fields the claims are
about; `initial_order_info` and the formatting caches are omitted). -/
structure CascadeServiceState where
  state : CascadeState
  initial_long_price : Option ℚ
  initial_short_price : Option ℚ
  current_long_quantity : ℚ
  current_short_quantity : ℚ
  cascade_orders_count : ℕ
  pending_orders : List ℕ
  initial_hedge_order : Option ℕ
deriving DecidableEq

/-- The order constructed by `CascadeService._create_next_cascade_order`
before formatting and placement: side, position side, stop price (one of the
two reference prices) and quantity. -/
structure CascadeOrderSpec where
  side : OrderSide
  position_side : PositionSide
  stop_price : Option ℚ
  quantity : ℚ
deriving DecidableEq

/-- The alternation rule of `_create_next_cascade_order`: with
`L = current_long_quantity` and `S = current_short_quantity`, `L > S` yields a
`SELL`/`SHORT` stop at `initial_short_price` with quantity `2L - S`, otherwise
a `BUY`/`LONG` stop at `initial_long_price` with quantity `2S - L`. -/
def next_cascade_order_spec (s : CascadeServiceState) : CascadeOrderSpec :=
  if s.current_short_quantity < s.current_long_quantity then
    { side := .sell
      position_side := .short
      stop_price := s.initial_short_price
      quantity := 2 * s.current_long_quantity - s.current_short_quantity }
  else
    { side := .buy
      position_side := .long
      stop_price := s.initial_long_price
      quantity := 2 * s.current_short_quantity - s.current_long_quantity }

/-- The state update of `_process_cascade_execution_async` when a cascade
child fills: drop it from `pending_orders`, add the executed quantity to the
running total of the matching side, bump the counter, and stop the cascade once
`MAX_ORDERS` is reached. -/
def process_cascade_execution (max_orders : ℕ) (s : CascadeServiceState)
    (side : OrderSide) (quantity : ℚ) (order_id : ℕ) : CascadeServiceState :=
  let s1 := { s with pending_orders := s.pending_orders.filter (· ≠ order_id) }
  let s2 :=
    match side with
    | .buy => { s1 with current_long_quantity := s1.current_long_quantity + quantity }
    | .sell => { s1 with current_short_quantity := s1.current_short_quantity + quantity }
  let s3 := { s2 with cascade_orders_count := s2.cascade_orders_count + 1 }
  if s3.cascade_orders_count < max_orders then s3 else { s3 with state := .stopped }

/-- `CascadeService._close_all_positions`: for every exchange position with a
non-zero amount whose sign matches its side (`LONG` with positive amount,
`SHORT` with negative amount), place a `MARKET` close of the absolute amount,
provided `_format_cascade_quantity` succeeds on it (`format_qty` is the
quantity formatter together with its positivity check). -/
def cascade_close_all_positions (format_qty : ℚ → Option ℚ)
    (positions : List ExchangePosition) : List ExchangeAction :=
  positions.filterMap fun p =>
    if |p.position_amt| = 0 then none
    else if p.position_side = .long ∧ 0 < p.position_amt then
      (format_qty p.position_amt).map fun q => .market_close .sell .long q
    else if p.position_side = .short ∧ p.position_amt < 0 then
      (format_qty |p.position_amt|).map fun q => .market_close .buy .short q
    else none

/-- `CascadeService.handle_tp_execution`: close all real positions, cancel all
pending cascade orders and the initial hedge order (when present), zero the
cumulative quantities and reference prices, clear the pending list and the
counter, and finish in the `STOPPED` state.  The function returns the new
state together with the exchange requests emitted. -/
def handle_tp_execution (format_qty : ℚ → Option ℚ)
    (positions : List ExchangePosition) (s : CascadeServiceState) :
    CascadeServiceState × List ExchangeAction :=
  let close_actions := cascade_close_all_positions format_qty positions
  let cancel_pending := s.pending_orders.map ExchangeAction.cancel
  let cancel_hedge :=
    match s.initial_hedge_order with
    | some oid => [ExchangeAction.cancel oid]
    | none => []
  let s1 : CascadeServiceState :=
    { state := .stopped
      initial_long_price := none
      initial_short_price := none
      current_long_quantity := 0
      current_short_quantity := 0
      cascade_orders_count := 0
      pending_orders := []
      initial_hedge_order := none }
  (s1, close_actions ++ cancel_pending ++ cancel_hedge)

/-! ### TP service cleanup (`src/core/tp_service.py`) -/

/-- The `TPService` fields touched by `check_tp_execution_and_cleanup` and
`_reset_tp_system`.  TP orders are identified by their order id. -/
structure TPServiceState where
  initial_price : Option ℚ
  hedge_stop_price : Option ℚ
  tp_distance : Option ℚ
  position_count : ℕ
  active_tp_long : Option ℕ
  active_tp_short : Option ℕ
  current_long_quantity : ℚ
  current_short_quantity : ℚ
deriving DecidableEq

/-- `TPService._reset_tp_system`. -/
def reset_tp_system : TPServiceState :=
  { initial_price := none
    hedge_stop_price := none
    tp_distance := none
    position_count := 1
    active_tp_long := none
    active_tp_short := none
    current_long_quantity := 0
    current_short_quantity := 0 }

/-- `TPService.check_tp_execution_and_cleanup`: `long_filled` /
`short_filled` are the `get_order_status(...) == FILLED` answers for the
respective active TP.  The LONG TP is checked first; on a fill the opposite
TP is cancelled and the whole TP system is reset.  Returns the new state, the
cancel requests and the executed side. -/
def check_tp_execution_and_cleanup (long_filled short_filled : Bool)
    (t : TPServiceState) : TPServiceState × List ℕ × Option PositionSide :=
  match t.active_tp_long, long_filled with
  | some _, true =>
      (reset_tp_system, t.active_tp_short.toList, some .long)
  | _, _ =>
      match t.active_tp_short, short_filled with
      | some _, true =>
          (reset_tp_system, t.active_tp_long.toList, some .short)
      | _, _ => (t, [], none)

/-! ### One-or-more service (`src/core/one_or_more_service.py`) -/

/-- The per-side state of `OneOrMoreService`.  Orders are identified by their
order id. -/
structure OneOrMoreState where
  active_position_long : Bool
  active_position_short : Bool
  active_hedge_long : Option ℕ
  active_hedge_short : Option ℕ
  active_tp_long : Option ℕ
  active_tp_short : Option ℕ
  active_tp_hedge_long : Option ℕ
  active_tp_hedge_short : Option ℕ
  active_stop_signal_long : Option ℕ
  active_stop_signal_short : Option ℕ
  active_stop_hedge_long : Option ℕ
  active_stop_hedge_short : Option ℕ
  signal_price_long : Option ℚ
  signal_price_short : Option ℚ
  hedge_price_long : Option ℚ
  hedge_price_short : Option ℚ
  distance_long : Option ℚ
  distance_short : Option ℚ
deriving DecidableEq

/-- `OneOrMoreService._reset_all_state`: clears the position flags, the six
hedge/TP order references and the prices and distances.  The four cross-stop
references (`active_stop_signal_long`, `active_stop_signal_short`,
`active_stop_hedge_long`, `active_stop_hedge_short`) are not touched by the
source function. -/
def oom_reset_all_state (s : OneOrMoreState) : OneOrMoreState :=
  { s with
    active_position_long := false
    active_position_short := false
    active_hedge_long := none
    active_hedge_short := none
    active_tp_long := none
    active_tp_short := none
    active_tp_hedge_long := none
    active_tp_hedge_short := none
    signal_price_long := none
    signal_price_short := none
    hedge_price_long := none
    hedge_price_short := none
    distance_long := none
    distance_short := none }

/-- `OneOrMoreService._close_open_positions`: for every exchange position
with non-zero amount, place a MARKET close (`SELL` for positive amounts,
`BUY` for negative ones) of the absolute amount, provided quantity
formatting succeeds. -/
def oom_close_open_positions (format_qty : ℚ → Option ℚ)
    (positions : List ExchangePosition) : List ExchangeAction :=
  positions.filterMap fun p =>
    if 0 < |p.position_amt| then
      (format_qty |p.position_amt|).map fun q =>
        .market_close (if 0 < p.position_amt then .sell else .buy) p.position_side q
    else none

/-- `OneOrMoreService._close_all_positions_and_orders`: cancel the two hedges,
the two signal TPs and the two hedge TPs (when present), market-close every
open position, then `_reset_all_state`.  The four cross-stop references are
not among the cancelled orders. -/
def close_all_positions_and_orders (format_qty : ℚ → Option ℚ)
    (positions : List ExchangePosition) (s : OneOrMoreState) :
    OneOrMoreState × List ExchangeAction :=
  let cancels :=
    (s.active_hedge_long.toList ++ s.active_hedge_short.toList ++
      s.active_tp_long.toList ++ s.active_tp_short.toList ++
      s.active_tp_hedge_long.toList ++ s.active_tp_hedge_short.toList).map
      ExchangeAction.cancel
  let closes := oom_close_open_positions format_qty positions
  (oom_reset_all_state s, cancels ++ closes)

/-- The state-saving step of `OneOrMoreService._create_cross_stop_orders`
(lines 714–720): after a hedge on `hedge_position_side` fills, the two freshly
placed cross-stop orders are recorded in the opposite pattern. -/
def save_cross_stop_orders (hedge_position_side : PositionSide)
    (stop_signal_order stop_hedge_order : Option ℕ) (s : OneOrMoreState) :
    OneOrMoreState :=
  match hedge_position_side with
  | .long =>
      { s with
        active_stop_signal_short := stop_signal_order
        active_stop_hedge_long := stop_hedge_order }
  | .short =>
      { s with
        active_stop_signal_long := stop_signal_order
        active_stop_hedge_short := stop_hedge_order }

/-! ### All-or-nothing service (`src/core/all_or_nothing_service.py`) -/

/-- The dict stored for an active SL/TP order (`orderId`, `stopPrice`,
`quantity`). -/
structure AoNOrderData where
  orderId : ℕ
  stopPrice : ℚ
  quantity : ℚ
deriving DecidableEq

/-- The per-side fields of `AllOrNothingService`.  `active_position_*` holds
the entry price when the side is active (the other bookkeeping entries of the dict
are irrelevant to the claims). -/
structure AllOrNothingState where
  active_position_long : Option ℚ
  active_position_short : Option ℚ
  active_sl_long : Option AoNOrderData
  active_sl_short : Option AoNOrderData
  active_tp_long : Option AoNOrderData
  active_tp_short : Option AoNOrderData
  trailing_reference_long : Option ℚ
  trailing_reference_short : Option ℚ
deriving DecidableEq

/-- Read the active SL reference of one side. -/
def aon_get_sl (side : PositionSide) (s : AllOrNothingState) : Option AoNOrderData :=
  match side with
  | .long => s.active_sl_long
  | .short => s.active_sl_short

/-- Write the active SL reference of one side. -/
def aon_set_sl (side : PositionSide) (v : Option AoNOrderData) (s : AllOrNothingState) :
    AllOrNothingState :=
  match side with
  | .long => { s with active_sl_long := v }
  | .short => { s with active_sl_short := v }

/-- Write the active TP reference of one side. -/
def aon_set_tp (side : PositionSide) (v : Option AoNOrderData) (s : AllOrNothingState) :
    AllOrNothingState :=
  match side with
  | .long => { s with active_tp_long := v }
  | .short => { s with active_tp_short := v }

/-- Read the active-position marker of one side. -/
def aon_get_position (side : PositionSide) (s : AllOrNothingState) : Option ℚ :=
  match side with
  | .long => s.active_position_long
  | .short => s.active_position_short

/-- Mark a side active right after the entry fill (`execute_signal` sets
`active_position_* = {"status": "creating_sl_tp", ...}` and initializes the
trailing reference with the entry price). -/
def aon_mark_active (side : PositionSide) (entry_price : ℚ) (s : AllOrNothingState) :
    AllOrNothingState :=
  match side with
  | .long =>
      { s with active_position_long := some entry_price
               trailing_reference_long := some entry_price }
  | .short =>
      { s with active_position_short := some entry_price
               trailing_reference_short := some entry_price }

/-- Clear only the active-position marker of one side (`execute_signal` sets
`active_position_* = None` on a protective-order failure; the trailing
reference is left as is). -/
def aon_clear_position (side : PositionSide) (s : AllOrNothingState) : AllOrNothingState :=
  match side with
  | .long => { s with active_position_long := none }
  | .short => { s with active_position_short := none }

/-- The `for attempt in range(1, max_attempts + 1)` loop body of
`AllOrNothingService._retry_operation`, generalized over the payload a
successful attempt produces: run the attempts in order, stop at the first
success, and sleep `2 * n` seconds after a failed attempt `n` that is not the
last (`if attempt < max_attempts`).  Returns the first success (if any) and
the list of sleep durations. -/
def retry_loop {α : Type} (op : ℕ → Option α) (max_attempts : ℕ) :
    List ℕ → Option α × List ℕ
  | [] => (none, [])
  | n :: rest =>
      match op n with
      | some v => (some v, [])
      | none =>
          if n < max_attempts then
            let r := retry_loop op max_attempts rest
            (r.1, 2 * n :: r.2)
          else (none, [])

/-- `_retry_operation(operation, name, max_attempts)`: attempts are numbered
`1 … max_attempts`. -/
def retry_operation {α : Type} (op : ℕ → Option α) (max_attempts : ℕ) :
    Option α × List ℕ :=
  retry_loop op max_attempts (List.range' 1 max_attempts)

/-- How the `try` body of `AllOrNothingService.execute_signal` ends after
the entry fill: normal completion, or one of the two `raise RuntimeError`
statements reached after SL / TP retry exhaustion.  These raises do **not**
escape `execute_signal`: the enclosing `except Exception` catches them (see
`execute_signal_result`). -/
inductive AoNOutcome
  | ok
  | fatal_sl_creation
  | fatal_tp_creation
deriving DecidableEq

/-- The protective-order part of the `try` body of
`AllOrNothingService.execute_signal` (everything after the entry fill, up to
and including the `raise RuntimeError` statements): mark the side active
immediately, create the SL with 5 retries, then — unless the dynamic RSI
exit is enabled — create the fixed TP with 5 retries.  On SL exhaustion
nothing is cancelled and the position marker of the side is cleared; on TP
exhaustion the freshly created SL is cancelled and cleared and the position
marker is cleared.  In both cases the body then raises `RuntimeError`
(outcome `fatal_sl_creation` / `fatal_tp_creation`); the catch that this
raise runs into is modelled by `execute_signal_result`.  `sl_attempt` /
`tp_attempt` give the result of each creation attempt; the returned list
holds the order ids cancelled on the way. -/
def execute_protective_phase (dynamic_rsi_enabled : Bool)
    (sl_attempt tp_attempt : ℕ → Option AoNOrderData)
    (side : PositionSide) (entry_price : ℚ) (s : AllOrNothingState) :
    AoNOutcome × AllOrNothingState × List ℕ :=
  let s1 := aon_mark_active side entry_price s
  match (retry_operation sl_attempt 5).1 with
  | none => (.fatal_sl_creation, aon_clear_position side s1, [])
  | some sl_data =>
      let s2 := aon_set_sl side (some sl_data) s1
      if dynamic_rsi_enabled then (.ok, s2, [])
      else
        match (retry_operation tp_attempt 5).1 with
        | none =>
            (.fatal_tp_creation,
              aon_clear_position side (aon_set_sl side none s2),
              [sl_data.orderId])
        | some tp_data => (.ok, aon_set_tp side (some tp_data) s2, [])

/-- The observable result of `AllOrNothingService.execute_signal` from the
entry fill onward.  The whole protective-order phase sits inside the
`try` opened at the top of the function, and the `except Exception` handler
at its end catches *every* exception — including the two `RuntimeError`s
raised on retry exhaustion — logs it, clears the position marker of the side
once more, and returns `False`.  `execute_signal` therefore returns an
ordinary boolean in every case; no exception propagates to its caller. -/
def execute_signal_result (dynamic_rsi_enabled : Bool)
    (sl_attempt tp_attempt : ℕ → Option AoNOrderData)
    (side : PositionSide) (entry_price : ℚ) (s : AllOrNothingState) :
    Bool × AllOrNothingState × List ℕ :=
  match execute_protective_phase dynamic_rsi_enabled sl_attempt tp_attempt side entry_price s with
  | (.ok, s2, cancels) => (true, s2, cancels)
  | (.fatal_sl_creation, s2, cancels) => (false, aon_clear_position side s2, cancels)
  | (.fatal_tp_creation, s2, cancels) => (false, aon_clear_position side s2, cancels)

/-! ### Gateway method surface (`src/api/binance_client.py`) -/

/-- The methods defined on `BinanceAPIClient` (the complete list of `def`s in
the class body). -/
def binance_client_methods : List String :=
  ["__init__", "_generate_signature", "get_account_balance", "get_account_info",
   "get_symbol_info", "place_order", "place_stop_market_order", "get_order_status",
   "get_open_orders", "place_take_profit_order", "cancel_order", "get_position_info",
   "create_listen_key", "keep_alive_listen_key", "close_listen_key"]

/-- `AllOrNothingService._format_price_with_precision`: it calls
`self.binance_client.format_price(price, symbol)`.  When no such method
exists on the client, Python raises `AttributeError`, the surrounding
`except` catches it, and the function returns `None`.  The `some price` arm
stands for a successful delegation and is reachable only if the client
actually defines `format_price`. -/
def format_price_with_precision (price : ℚ) : Option ℚ :=
  if "format_price" ∈ binance_client_methods then some price else none

/-- `AllOrNothingService._create_stop_loss`: format the SL price (abort on
`None`), then place the `STOP_MARKET` order (`place_result` is the
answer of the exchange) and remember the order data on success. -/
def create_stop_loss (place_result : Option ℕ) (quantity sl_price : ℚ) :
    Option AoNOrderData :=
  match format_price_with_precision sl_price with
  | none => none
  | some fp =>
      match place_result with
      | some oid => some { orderId := oid, stopPrice := fp, quantity := quantity }
      | none => none

/-- `AllOrNothingService._create_take_profit`: format the TP price, derive and
format the trigger price (`PRICE_OFFSET` below / above it), place the
`TAKE_PROFIT` order and remember the order data on success. -/
def create_take_profit (place_result : Option ℕ) (side : PositionSide)
    (quantity tp_price price_offset : ℚ) : Option AoNOrderData :=
  match format_price_with_precision tp_price with
  | none => none
  | some fp =>
      let trigger :=
        match side with
        | .long => fp * (1 - price_offset)
        | .short => fp * (1 + price_offset)
      match format_price_with_precision trigger with
      | none => none
      | some fsp =>
          match place_result with
          | some oid => some { orderId := oid, stopPrice := fsp, quantity := quantity }
          | none => none

/-! ### Trailing stop (`src/core/all_or_nothing_service.py`) -/

/-- The replacement SL price computed by
`_execute_trailing_stop_adjustment`: the *current SL price* moved by
`SL_ADJUSTMENT_PERCENT` (up for LONG, down for SHORT).  Neither the entry
price nor the market price enters the formula. -/
def trailing_new_sl_price (position_side : PositionSide)
    (current_sl_price adjustment_percent : ℚ) : ℚ :=
  match position_side with
  | .long => current_sl_price * (1 + adjustment_percent)
  | .short => current_sl_price * (1 - adjustment_percent)

/-- The price `_execute_trailing_stop_adjustment` derives for one side from
the service state: it reads the active SL of the side and applies
`trailing_new_sl_price` to its recorded `stopPrice`. -/
def execute_trailing_adjustment_target (position_side : PositionSide)
    (adjustment_percent : ℚ) (s : AllOrNothingState) : Option ℚ :=
  (aon_get_sl position_side s).map fun cur =>
    trailing_new_sl_price position_side cur.stopPrice adjustment_percent

/-- `AllOrNothingService._update_stop_loss_order`: cancel the existing SL
(`cur`), then place the replacement (`place_result` being the
answer of the exchange).  On success the SL reference of the side is replaced; on failure the
function returns `False` and leaves the state untouched, so the side still
records `cur` — whose exchange order was just cancelled — as its active SL.
Returns (success flag, new state, cancel requests emitted). -/
def update_stop_loss_order (position_side : PositionSide) (cur : AoNOrderData)
    (place_result : Option ℕ) (new_sl_price : ℚ) (s : AllOrNothingState) :
    Bool × AllOrNothingState × List ℕ :=
  let cancels := [cur.orderId]
  match place_result with
  | some oid =>
      (true,
        aon_set_sl position_side
          (some { orderId := oid, stopPrice := new_sl_price, quantity := cur.quantity }) s,
        cancels)
  | none => (false, s, cancels)

/-! ### Concrete evaluation scenarios -/

/-- A closed 5m candle message as delivered by the kline stream. -/
def sample_msg : KlineData :=
  { open_time := 1700000000, is_closed := true, high := 4, low := 1, close := 2, volume := 100 }

/-- A freshly started bot: signal engine waiting, no orders placed. -/
def sample_bot : BotState :=
  { signal_service :=
      { current_state := .waiting
        pending_signal_type := none
        confirmed_signal := none
        volume_validation_enabled := false
        volume_lookback_candles := 14
        volume_history := [] }
    orders_placed := 0 }

/-- Market data accompanying `sample_msg`: one configured RSI period reading
oversold, and a green Heikin-Ashi close. -/
def sample_rsi : Option (List RSIPeriodData) :=
  some [{ value := some 5, oversold := 10, overbought := 90 }]

/-- See `sample_rsi`. -/
def sample_ha : Option HAData := some { color := some .green }

/-- One pass of the kline handler over `sample_msg` (no cascade, no TPs). -/
def sample_step (b : BotState) : BotState :=
  handle_kline_message false false sample_rsi sample_ha sample_msg b

/-- A signal engine pending LONG confirmation, volume validation off. -/
def pending_long_signal_state : SignalServiceState :=
  { current_state := .rsi_condition_met
    pending_signal_type := some .long
    confirmed_signal := none
    volume_validation_enabled := false
    volume_lookback_candles := 14
    volume_history := [] }

/-- A cascade mid-flight: references 100 / 96, `L = 0.002`-style cumulative
quantities scaled to integers (`L = 2`, `S = 4` in thousandths), two pending
children. -/
def sample_cascade : CascadeServiceState :=
  { state := .active
    initial_long_price := some 100
    initial_short_price := some 96
    current_long_quantity := 2
    current_short_quantity := 4
    cascade_orders_count := 1
    pending_orders := [11, 12]
    initial_hedge_order := none }

/-- A ONE_OR_MORE cycle after the LONG-side hedge filled and the cross-stop
installer recorded its two stop orders (ids 7 and 8). -/
def sample_oom : OneOrMoreState :=
  save_cross_stop_orders .long (some 7) (some 8)
    { active_position_long := true
      active_position_short := false
      active_hedge_long := none
      active_hedge_short := none
      active_tp_long := some 5
      active_tp_short := none
      active_tp_hedge_long := some 6
      active_tp_hedge_short := none
      active_stop_signal_long := none
      active_stop_signal_short := none
      active_stop_hedge_long := none
      active_stop_hedge_short := none
      signal_price_long := some 100
      signal_price_short := none
      hedge_price_long := some 99
      hedge_price_short := none
      distance_long := some 1
      distance_short := none }

/-- An ALL_OR_NOTHING state with an active LONG position (entry 101) and a
live LONG stop loss (order 41, stop 96, quantity 2). -/
def sample_aon : AllOrNothingState :=
  { active_position_long := some 101
    active_position_short := none
    active_sl_long := some { orderId := 41, stopPrice := 96, quantity := 2 }
    active_sl_short := none
    active_tp_long := none
    active_tp_short := none
    trailing_reference_long := some 101
    trailing_reference_short := none }

/-- An ALL_OR_NOTHING state with no active position and no protective
orders (the state in which `execute_signal` accepts a LONG signal). -/
def idle_aon : AllOrNothingState :=
  { active_position_long := none
    active_position_short := none
    active_sl_long := none
    active_sl_short := none
    active_tp_long := none
    active_tp_short := none
    trailing_reference_long := none
    trailing_reference_short := none }

/-! ## Helper lemmas -/

theorem truncQ_eq_floor (x : ℚ) (h : 0 ≤ x) : truncQ x = ⌊x⌋ := by
  rw [truncQ, Rat.floor_def]
  exact Int.tdiv_eq_ediv (Rat.num_nonneg.mpr h) (Int.natCast_nonneg _)

theorem quantize_down_le (x : ℚ) (dp : ℕ) (h : 0 ≤ x) : quantize_down x dp ≤ x := by
  rw [quantize_down, truncQ_eq_floor _ (by positivity), div_le_iff₀ (by positivity)]
  exact Int.floor_le _

theorem sub_lt_quantize_down (x : ℚ) (dp : ℕ) (h : 0 ≤ x) :
    x - 1 / 10 ^ dp < quantize_down x dp := by
  rw [quantize_down, truncQ_eq_floor _ (by positivity),
    lt_div_iff₀ (by positivity : (0:ℚ) < 10 ^ dp)]
  have hx : (x - 1 / 10 ^ dp) * 10 ^ dp = x * 10 ^ dp - 1 := by
    field_simp
  rw [hx]
  exact Int.sub_one_lt_floor _

theorem retry_operation_five_fail {α : Type} (op : ℕ → Option α)
    (h : ∀ n, 1 ≤ n → n ≤ 5 → op n = none) :
    retry_operation op 5 = (none, [2, 4, 6, 8]) := by
  have h1 := h 1 (by norm_num) (by norm_num)
  have h2 := h 2 (by norm_num) (by norm_num)
  have h3 := h 3 (by norm_num) (by norm_num)
  have h4 := h 4 (by norm_num) (by norm_num)
  have h5 := h 5 (by norm_num) (by norm_num)
  have hr : List.range' 1 5 = [1, 2, 3, 4, 5] := rfl
  simp [retry_operation, hr, retry_loop, h1, h2, h3, h4, h5]

theorem aon_clear_position_idem (side : PositionSide) (s : AllOrNothingState) :
    aon_clear_position side (aon_clear_position side s) = aon_clear_position side s := by
  cases side <;> rfl

/-! ## Claim C1 -/

/-- Claim C1, as stated, is false on the code: with the engine pending LONG
(state `RSI_CONDITION_MET`) and the Heikin-Ashi color of the next close red (not
the confirming green), `process_market_data` leaves the state at
`RSI_CONDITION_MET` — it does not transition back to `WAITING`. -/
theorem c1_counterexample :
    (process_market_data false false
        (some [{ value := some 50, oversold := 10, overbought := 90 }])
        (some { color := some .red }) none pending_long_signal_state).1.current_state =
      SignalState.rsi_condition_met
    ∧ SignalState.rsi_condition_met ≠ SignalState.waiting := by
  constructor
  · rfl
  · decide

/-- Claim C1 (amended): whenever the engine is in the `RSI_CONDITION_MET`
(pending) state and the Heikin-Ashi color of the closed candle does not confirm
the pending side, the engine stays in `RSI_CONDITION_MET` with the same
pending side and emits nothing; RSI conditions are *not* re-evaluated until a
confirming color arrives or an external `reset_signal`. -/
theorem c1_ha_nonconfirm_stays_pending
    (s : SignalServiceState) (rsi : List RSIPeriodData) (ha : HAData) (vol : Option ℚ)
    (hstate : s.current_state = .rsi_condition_met)
    (hconf : check_ha_confirmation s.pending_signal_type ha = none) :
    process_market_data false false (some rsi) (some ha) vol s = (s, none) := by
  obtain ⟨cs, pend, conf, ven, vlk, vh⟩ := s
  have hcs : cs = .rsi_condition_met := hstate
  subst hcs
  by_cases hE : rsi.isEmpty <;>
    simp [process_market_data, handle_rsi_condition_met_state, hconf, hE]

/-- Witness for `c1_ha_nonconfirm_stays_pending` at a concrete pending-LONG
state and a red (non-confirming) Heikin-Ashi close. -/
theorem c1_witness :
    pending_long_signal_state.current_state = .rsi_condition_met
    ∧ check_ha_confirmation pending_long_signal_state.pending_signal_type
        { color := some .red } = none
    ∧ process_market_data false false
        (some [{ value := some 50, oversold := 10, overbought := 90 }])
        (some { color := some .red }) none pending_long_signal_state =
        (pending_long_signal_state, none) :=
  ⟨rfl, rfl,
    c1_ha_nonconfirm_stays_pending pending_long_signal_state
      [{ value := some 50, oversold := 10, overbought := 90 }]
      { color := some .red } none rfl rfl⟩

/-! ## Claim C2 -/

/-- Claim C2, as stated, is false on the code: the kline handler keeps no
record of processed `open_time`s, so feeding the same closed-candle message
twice does not leave the downstream state as after one feed.  Concretely,
with an oversold RSI reading and a green HA close, the first pass arms the
signal engine and places no order, while the duplicate pass confirms the
signal and places an entry order; likewise `update_candle_history` appends
the duplicate candle a second time. -/
theorem c2_counterexample :
    (sample_step sample_bot).orders_placed = 0
    ∧ (sample_step (sample_step sample_bot)).orders_placed = 1
    ∧ sample_step (sample_step sample_bot) ≠ sample_step sample_bot
    ∧ update_candle_history 5 [{ high := 4, low := 1, close := 2, volume := 100 }]
        { high := 4, low := 1, close := 2, volume := 100 } ≠
        [{ high := 4, low := 1, close := 2, volume := 100 }] := by
  refine ⟨by decide, by decide, by decide, by decide⟩

/-- Claim C2 (amended): the market-data handler performs no duplicate
suppression at all — its behaviour is completely independent of the
message field `open_time` (there is no idempotence key), and the strategy
candle-history update unconditionally appends the incoming candle (a
duplicate becomes the new last element rather than being suppressed). -/
theorem c2_no_open_time_key :
    (∀ (cascade_active tp_active : Bool) (rsi : Option (List RSIPeriodData))
        (ha : Option HAData) (msg : KlineData) (b : BotState) (t : ℕ),
        handle_kline_message cascade_active tp_active rsi ha
            { msg with open_time := t } b =
          handle_kline_message cascade_active tp_active rsi ha msg b)
    ∧ (∀ (n : ℕ) (h : List CandleHLCV) (c : CandleHLCV),
        (update_candle_history n h c).getLast? = some c) := by
  constructor
  · intro _ _ _ _ _ _ _
    rfl
  · intro n h c
    simp only [update_candle_history]
    split
    · have hlen : (h ++ [c]).length - (n + 1) ≤ h.length := by
        simp only [List.length_append, List.length_cons, List.length_nil]
        omega
      rw [List.drop_append_of_le_length hlen, List.getLast?_concat]
    · exact List.getLast?_concat _

/-! ## Claim C3 -/

/-- The cumulative quantities after a cascade child fills, by side. -/
theorem process_cascade_execution_quantities (max_orders : ℕ) (s : CascadeServiceState)
    (side : OrderSide) (q : ℚ) (order_id : ℕ) :
    (process_cascade_execution max_orders s side q order_id).current_long_quantity =
        (match side with
          | .buy => s.current_long_quantity + q
          | .sell => s.current_long_quantity)
    ∧ (process_cascade_execution max_orders s side q order_id).current_short_quantity =
        (match side with
          | .buy => s.current_short_quantity
          | .sell => s.current_short_quantity + q) := by
  cases side <;>
    · simp only [process_cascade_execution]
      split <;> exact ⟨rfl, rfl⟩

/-- Claim C3, as stated, is false on the code: at the S3 numbers of the spec itself
(scaled to integers, `L = 2`, `S = 4`), the next child is a BUY of quantity
`2·4 − 2 = 6`, and after it fills the cumulatives are `L = 8`, `S = 4`, so
`|L − S| = 4 ≠ 6` — the absolute difference equals the *previous* dominant
quantity, which is strictly less than the quantity of the child. -/
theorem c3_counterexample :
    (next_cascade_order_spec sample_cascade).quantity = 6
    ∧ |(process_cascade_execution 10 sample_cascade
            (next_cascade_order_spec sample_cascade).side
            (next_cascade_order_spec sample_cascade).quantity 0).current_long_quantity -
          (process_cascade_execution 10 sample_cascade
            (next_cascade_order_spec sample_cascade).side
            (next_cascade_order_spec sample_cascade).quantity 0).current_short_quantity| = 4
    ∧ (4 : ℚ) ≠ 6 := by
  refine ⟨?_, ?_, by norm_num⟩ <;>
    norm_num [sample_cascade, next_cascade_order_spec, process_cascade_execution]

/-- Claim C3 (amended): with both cumulatives positive and distinct, the next
cascade child is placed on the opposite side of the dominant one, at the
reference price of the opposite side, with quantity `2·max(L,S) − min(L,S)`; after
that child fills, `|L − S|` of the updated cumulatives equals the *previous*
`max(L,S)` — strictly **less** than the quantity of the child — and the previously
smaller side now dominates. -/
theorem c3_cascade_alternation (s : CascadeServiceState) (max_orders order_id : ℕ)
    (hL : 0 < s.current_long_quantity) (hS : 0 < s.current_short_quantity)
    (hne : s.current_long_quantity ≠ s.current_short_quantity) :
    (next_cascade_order_spec s).quantity =
        2 * max s.current_long_quantity s.current_short_quantity -
          min s.current_long_quantity s.current_short_quantity
    ∧ (s.current_short_quantity < s.current_long_quantity →
        (next_cascade_order_spec s).side = .sell
        ∧ (next_cascade_order_spec s).position_side = .short
        ∧ (next_cascade_order_spec s).stop_price = s.initial_short_price)
    ∧ (s.current_long_quantity < s.current_short_quantity →
        (next_cascade_order_spec s).side = .buy
        ∧ (next_cascade_order_spec s).position_side = .long
        ∧ (next_cascade_order_spec s).stop_price = s.initial_long_price)
    ∧ |(process_cascade_execution max_orders s (next_cascade_order_spec s).side
            (next_cascade_order_spec s).quantity order_id).current_long_quantity -
          (process_cascade_execution max_orders s (next_cascade_order_spec s).side
            (next_cascade_order_spec s).quantity order_id).current_short_quantity| =
        max s.current_long_quantity s.current_short_quantity
    ∧ max s.current_long_quantity s.current_short_quantity <
        (next_cascade_order_spec s).quantity
    ∧ (s.current_short_quantity < s.current_long_quantity →
        (process_cascade_execution max_orders s (next_cascade_order_spec s).side
            (next_cascade_order_spec s).quantity order_id).current_long_quantity <
          (process_cascade_execution max_orders s (next_cascade_order_spec s).side
            (next_cascade_order_spec s).quantity order_id).current_short_quantity)
    ∧ (s.current_long_quantity < s.current_short_quantity →
        (process_cascade_execution max_orders s (next_cascade_order_spec s).side
            (next_cascade_order_spec s).quantity order_id).current_short_quantity <
          (process_cascade_execution max_orders s (next_cascade_order_spec s).side
            (next_cascade_order_spec s).quantity order_id).current_long_quantity) := by
  obtain ⟨hq0, hq1⟩ :=
    process_cascade_execution_quantities max_orders s (next_cascade_order_spec s).side
      (next_cascade_order_spec s).quantity order_id
  rcases lt_or_gt_of_ne hne with h | h
  · -- L < S : the BUY branch
    have hif : ¬ s.current_short_quantity < s.current_long_quantity := not_lt_of_gt h
    simp only [next_cascade_order_spec, if_neg hif] at hq0 hq1 ⊢
    rw [max_eq_right h.le, min_eq_left h.le]
    refine ⟨by ring, fun h' => absurd h' hif, fun _ => by simp, ?_, by linarith, ?_, ?_⟩
    · rw [hq0, hq1]
      have he : s.current_long_quantity +
          (2 * s.current_short_quantity - s.current_long_quantity) -
          s.current_short_quantity = s.current_short_quantity := by ring
      rw [he, abs_of_pos hS]
    · intro h'
      exact absurd h' hif
    · intro _
      rw [hq0, hq1]
      linarith
  · -- S < L : the SELL branch
    simp only [next_cascade_order_spec, if_pos h] at hq0 hq1 ⊢
    rw [max_eq_left h.le, min_eq_right h.le]
    refine ⟨by ring, fun _ => by simp, fun h' => absurd h' (not_lt_of_gt h), ?_,
      by linarith, ?_, ?_⟩
    · rw [hq0, hq1]
      have he : s.current_long_quantity -
          (s.current_short_quantity +
            (2 * s.current_long_quantity - s.current_short_quantity)) =
          -s.current_long_quantity := by ring
      rw [he, abs_neg, abs_of_pos hL]
    · intro _
      rw [hq0, hq1]
      linarith
    · intro h'
      exact absurd h' (not_lt_of_gt h)

/-- Witness for `c3_cascade_alternation` at the S3-style cascade state
(`L = 2 < S = 4`): the child quantity is `2·max − min = 6`. -/
theorem c3_witness :
    0 < sample_cascade.current_long_quantity
    ∧ 0 < sample_cascade.current_short_quantity
    ∧ sample_cascade.current_long_quantity ≠ sample_cascade.current_short_quantity
    ∧ (next_cascade_order_spec sample_cascade).quantity =
        2 * max sample_cascade.current_long_quantity sample_cascade.current_short_quantity -
          min sample_cascade.current_long_quantity sample_cascade.current_short_quantity :=
  ⟨by norm_num [sample_cascade], by norm_num [sample_cascade], by norm_num [sample_cascade],
    (c3_cascade_alternation sample_cascade 10 0 (by norm_num [sample_cascade])
      (by norm_num [sample_cascade]) (by norm_num [sample_cascade])).1⟩

/-! ## Claim C4 -/

/-- Claim C4, as stated, is false on the code: `handle_tp_execution` clears
the per-process cascade fields but deliberately finishes in the `STOPPED`
state ("Passer en état STOPPED pour permettre nouveau signal"), not
`INACTIVE`. -/
theorem c4_counterexample :
    (handle_tp_execution some [] sample_cascade).1.state = CascadeState.stopped
    ∧ CascadeState.stopped ≠ CascadeState.inactive :=
  ⟨rfl, by decide⟩

/-- Claim C4 (amended): on a TP fill, the TP service cancels the opposite
TP of the opposite side and resets itself; the cascade runtime cancels all pending cascade
children and any remaining initial hedge order, market-flattens every
non-zero sign-consistent exchange position whose quantity formats, and clears
the reference prices, cumulative quantities, order count and pending list —
but the resulting state field is `STOPPED`, not `INACTIVE` (either value
makes `is_cascade_active()` false, so new signals are unblocked). -/
theorem c4_tp_execution_reset :
    (∀ (t : TPServiceState) (lid sid : ℕ), t.active_tp_long = some lid →
        t.active_tp_short = some sid →
        check_tp_execution_and_cleanup true false t = (reset_tp_system, [sid], some .long))
    ∧ (∀ (t : TPServiceState) (sid : ℕ), t.active_tp_short = some sid →
        check_tp_execution_and_cleanup false true t =
          (reset_tp_system, t.active_tp_long.toList, some .short))
    ∧ (∀ (format_qty : ℚ → Option ℚ) (positions : List ExchangePosition)
          (s : CascadeServiceState),
        (handle_tp_execution format_qty positions s).1 =
          { state := .stopped
            initial_long_price := none
            initial_short_price := none
            current_long_quantity := 0
            current_short_quantity := 0
            cascade_orders_count := 0
            pending_orders := []
            initial_hedge_order := none })
    ∧ (∀ (format_qty : ℚ → Option ℚ) (positions : List ExchangePosition)
          (s : CascadeServiceState) (oid : ℕ), oid ∈ s.pending_orders →
        ExchangeAction.cancel oid ∈ (handle_tp_execution format_qty positions s).2)
    ∧ (∀ (format_qty : ℚ → Option ℚ) (positions : List ExchangePosition)
          (s : CascadeServiceState) (hid : ℕ), s.initial_hedge_order = some hid →
        ExchangeAction.cancel hid ∈ (handle_tp_execution format_qty positions s).2)
    ∧ (∀ (format_qty : ℚ → Option ℚ) (positions : List ExchangePosition)
          (s : CascadeServiceState) (p : ExchangePosition) (q : ℚ), p ∈ positions →
        p.position_side = .long → 0 < p.position_amt → format_qty p.position_amt = some q →
        ExchangeAction.market_close .sell .long q ∈ (handle_tp_execution format_qty positions s).2)
    ∧ (∀ (format_qty : ℚ → Option ℚ) (positions : List ExchangePosition)
          (s : CascadeServiceState) (p : ExchangePosition) (q : ℚ), p ∈ positions →
        p.position_side = .short → p.position_amt < 0 → format_qty |p.position_amt| = some q →
        ExchangeAction.market_close .buy .short q ∈ (handle_tp_execution format_qty positions s).2) := by
  refine ⟨?_, ?_, fun _ _ _ => rfl, ?_, ?_, ?_, ?_⟩
  · intro t lid sid hl hs
    simp [check_tp_execution_and_cleanup, hl, hs]
  · intro t sid hs
    cases hl : t.active_tp_long <;>
      simp [check_tp_execution_and_cleanup, hl, hs]
  · intro format_qty positions s oid hmem
    simp only [handle_tp_execution, List.mem_append]
    exact Or.inl (Or.inr (List.mem_map_of_mem ExchangeAction.cancel hmem))
  · intro format_qty positions s hid hhedge
    simp only [handle_tp_execution, hhedge, List.mem_append]
    exact Or.inr (List.mem_singleton_self _)
  · intro format_qty positions s p q hmem hside hamt hfmt
    simp only [handle_tp_execution, List.mem_append]
    refine Or.inl (Or.inl (List.mem_filterMap.mpr ⟨p, hmem, ?_⟩))
    rw [if_neg (by simp [abs_eq_zero]; linarith), if_pos ⟨hside, hamt⟩, hfmt]
    rfl
  · intro format_qty positions s p q hmem hside hamt hfmt
    simp only [handle_tp_execution, List.mem_append]
    refine Or.inl (Or.inl (List.mem_filterMap.mpr ⟨p, hmem, ?_⟩))
    rw [if_neg (by simp [abs_eq_zero]; linarith),
      if_neg (by simp [hside]), if_pos ⟨hside, hamt⟩, hfmt]
    rfl

/-- Witness for `c4_tp_execution_reset`: a TP LONG fill with both TPs live
cancels the SHORT TP and resets the TP system, and a pending cascade child of
`sample_cascade` is cancelled by the cascade reset. -/
theorem c4_witness :
    ({ initial_price := none, hedge_stop_price := none, tp_distance := some 4,
       position_count := 3, active_tp_long := some 21, active_tp_short := some 22,
       current_long_quantity := 2, current_short_quantity := 4 } :
        TPServiceState).active_tp_long = some 21
    ∧ ({ initial_price := none, hedge_stop_price := none, tp_distance := some 4,
         position_count := 3, active_tp_long := some 21, active_tp_short := some 22,
         current_long_quantity := 2, current_short_quantity := 4 } :
          TPServiceState).active_tp_short = some 22
    ∧ check_tp_execution_and_cleanup true false
        { initial_price := none, hedge_stop_price := none, tp_distance := some 4,
          position_count := 3, active_tp_long := some 21, active_tp_short := some 22,
          current_long_quantity := 2, current_short_quantity := 4 } =
        (reset_tp_system, [22], some .long)
    ∧ (11 : ℕ) ∈ sample_cascade.pending_orders
    ∧ ExchangeAction.cancel 11 ∈ (handle_tp_execution some [] sample_cascade).2 :=
  ⟨rfl, rfl,
    c4_tp_execution_reset.1 _ 21 22 rfl rfl,
    by decide,
    (c4_tp_execution_reset.2.2.2.1 some [] sample_cascade 11 (by decide))⟩

/-! ## Claim C5 -/

/-- Claim C5, as stated, is false on the code: on a state where the
cross-stop installer has recorded its two stop orders (ids 7 and 8), the
teardown `_close_all_positions_and_orders` neither cancels them nor clears
their references — both survive the "full teardown" as recorded active
orders. -/
theorem c5_counterexample :
    (close_all_positions_and_orders some [] sample_oom).1.active_stop_signal_short = some 7
    ∧ ExchangeAction.cancel 7 ∉ (close_all_positions_and_orders some [] sample_oom).2
    ∧ (close_all_positions_and_orders some [] sample_oom).1.active_stop_hedge_long = some 8
    ∧ ExchangeAction.cancel 8 ∉ (close_all_positions_and_orders some [] sample_oom).2 := by
  refine ⟨by decide, by decide, by decide, by decide⟩

/-- Claim C5 (amended): when a signal TP or hedge TP fills, the teardown
cancels every recorded hedge, signal-TP and hedge-TP order, market-flattens
every non-zero exchange position whose quantity formats, and clears the
position flags, those six order references and the prices and distances.
The four cross-stop references are *not* cancelled and *not* cleared by the
teardown; however, the cross-stop installer is never invoked in this
revision, so on states with no cross-stop recorded (all reachable states) no
order reference of the cycle remains recorded as active after teardown. -/
theorem c5_teardown (format_qty : ℚ → Option ℚ) (positions : List ExchangePosition)
    (s : OneOrMoreState)
    (h1 : s.active_stop_signal_long = none) (h2 : s.active_stop_signal_short = none)
    (h3 : s.active_stop_hedge_long = none) (h4 : s.active_stop_hedge_short = none) :
    (close_all_positions_and_orders format_qty positions s).1 =
        { active_position_long := false
          active_position_short := false
          active_hedge_long := none
          active_hedge_short := none
          active_tp_long := none
          active_tp_short := none
          active_tp_hedge_long := none
          active_tp_hedge_short := none
          active_stop_signal_long := none
          active_stop_signal_short := none
          active_stop_hedge_long := none
          active_stop_hedge_short := none
          signal_price_long := none
          signal_price_short := none
          hedge_price_long := none
          hedge_price_short := none
          distance_long := none
          distance_short := none }
    ∧ (∀ oid, s.active_hedge_long = some oid →
        ExchangeAction.cancel oid ∈ (close_all_positions_and_orders format_qty positions s).2)
    ∧ (∀ oid, s.active_hedge_short = some oid →
        ExchangeAction.cancel oid ∈ (close_all_positions_and_orders format_qty positions s).2)
    ∧ (∀ oid, s.active_tp_long = some oid →
        ExchangeAction.cancel oid ∈ (close_all_positions_and_orders format_qty positions s).2)
    ∧ (∀ oid, s.active_tp_short = some oid →
        ExchangeAction.cancel oid ∈ (close_all_positions_and_orders format_qty positions s).2)
    ∧ (∀ oid, s.active_tp_hedge_long = some oid →
        ExchangeAction.cancel oid ∈ (close_all_positions_and_orders format_qty positions s).2)
    ∧ (∀ oid, s.active_tp_hedge_short = some oid →
        ExchangeAction.cancel oid ∈ (close_all_positions_and_orders format_qty positions s).2)
    ∧ (∀ p q, p ∈ positions → 0 < |p.position_amt| →
        format_qty |p.position_amt| = some q →
        ExchangeAction.market_close (if 0 < p.position_amt then .sell else .buy)
            p.position_side q ∈
          (close_all_positions_and_orders format_qty positions s).2) := by
  refine ⟨?_, ?_, ?_, ?_, ?_, ?_, ?_, ?_⟩
  · simp [close_all_positions_and_orders, oom_reset_all_state, h1, h2, h3, h4]
  · intro oid hmem
    simp [close_all_positions_and_orders, hmem]
  · intro oid hmem
    simp [close_all_positions_and_orders, hmem]
  · intro oid hmem
    simp [close_all_positions_and_orders, hmem]
  · intro oid hmem
    simp [close_all_positions_and_orders, hmem]
  · intro oid hmem
    simp [close_all_positions_and_orders, hmem]
  · intro oid hmem
    simp [close_all_positions_and_orders, hmem]
  · intro p q hmem habs hfmt
    simp only [close_all_positions_and_orders, List.mem_append]
    refine Or.inr (List.mem_filterMap.mpr ⟨p, hmem, ?_⟩)
    rw [if_pos habs, hfmt]
    rfl

/-- Witness for `c5_teardown`: a cycle with one live hedge, signal TP and
hedge TP (and no cross-stops) tears down to the blank state, and the
cancellation of the hedge is among the emitted requests. -/
theorem c5_witness :
    (close_all_positions_and_orders some []
        { active_position_long := true
          active_position_short := false
          active_hedge_long := some 31
          active_hedge_short := none
          active_tp_long := some 32
          active_tp_short := none
          active_tp_hedge_long := some 33
          active_tp_hedge_short := none
          active_stop_signal_long := none
          active_stop_signal_short := none
          active_stop_hedge_long := none
          active_stop_hedge_short := none
          signal_price_long := some 100
          signal_price_short := none
          hedge_price_long := some 99
          hedge_price_short := none
          distance_long := some 1
          distance_short := none }).1 =
      { active_position_long := false
        active_position_short := false
        active_hedge_long := none
        active_hedge_short := none
        active_tp_long := none
        active_tp_short := none
        active_tp_hedge_long := none
        active_tp_hedge_short := none
        active_stop_signal_long := none
        active_stop_signal_short := none
        active_stop_hedge_long := none
        active_stop_hedge_short := none
        signal_price_long := none
        signal_price_short := none
        hedge_price_long := none
        hedge_price_short := none
        distance_long := none
        distance_short := none }
    ∧ ExchangeAction.cancel 31 ∈
        (close_all_positions_and_orders some []
          { active_position_long := true
            active_position_short := false
            active_hedge_long := some 31
            active_hedge_short := none
            active_tp_long := some 32
            active_tp_short := none
            active_tp_hedge_long := some 33
            active_tp_hedge_short := none
            active_stop_signal_long := none
            active_stop_signal_short := none
            active_stop_hedge_long := none
            active_stop_hedge_short := none
            signal_price_long := some 100
            signal_price_short := none
            hedge_price_long := some 99
            hedge_price_short := none
            distance_long := some 1
            distance_short := none }).2 :=
  ⟨(c5_teardown some [] _ rfl rfl rfl rfl).1,
    (c5_teardown some [] _ rfl rfl rfl rfl).2.1 31 rfl⟩

/-! ## Claim C6 -/

/-- Claim C6, as stated, is false on the code: for the positive tick / step
size `0.5` (decimal representation `⟨5, 1⟩`), both formatters leave `0.7`
unchanged — `Decimal.quantize` only matches the *exponent* of the grid, so
the result `0.7` is not on the `0.5` grid at all (grid round-down would give
`0.5`). -/
theorem c6_counterexample :
    format_quantity (7 / 10) ⟨5, 1⟩ = 7 / 10
    ∧ format_price (7 / 10) ⟨5, 1⟩ = some (7 / 10)
    ∧ DecimalRep.val ⟨5, 1⟩ = 1 / 2
    ∧ grid_round_down (7 / 10) (1 / 2) = 1 / 2
    ∧ (7 / 10 : ℚ) ≠ 1 / 2
    ∧ ¬ ∃ k : ℤ, (7 / 10 : ℚ) = k * (1 / 2) := by
  refine ⟨?_, ?_, ?_, ?_, by norm_num, ?_⟩
  · norm_num [format_quantity, DecimalRep.val, quantize_down, truncQ, Int.tdiv]
  · norm_num [format_price, DecimalRep.val, quantize_down, truncQ, Int.tdiv]
  · norm_num [DecimalRep.val]
  · norm_num [grid_round_down, truncQ, Int.tdiv]
  · rintro ⟨k, hk⟩
    have h5 : (5 : ℚ) * (k : ℚ) = 7 := by linarith
    have h5' : (5 * k : ℤ) = 7 := by exact_mod_cast h5
    omega

/-- Claim C6 (amended): for a finite non-negative value and a positive
step / tick size, the formatters round the value down (toward zero) to the
*number of decimal places* of the step / tick size — the result is an
integer multiple of `10^(-dp)`, at most the input, and within `10^(-dp)`
below it.  This coincides with rounding down onto the step / tick grid
exactly when the grid is a unit decimal `10^(-dp)` (mantissa 1); for other
grids (e.g. `0.5`) the result can be off-grid. -/
theorem c6_format_rounds_to_decimal_places (x : ℚ) (d : DecimalRep)
    (hx : 0 ≤ x) (hd : 0 < d.val) :
    format_quantity x d = quantize_down x d.dp
    ∧ format_price x d = some (quantize_down x d.dp)
    ∧ (∃ k : ℤ, quantize_down x d.dp = (k : ℚ) / 10 ^ d.dp)
    ∧ quantize_down x d.dp ≤ x
    ∧ x - 1 / 10 ^ d.dp < quantize_down x d.dp
    ∧ (d.mant = 1 →
        format_quantity x d = grid_round_down x d.val
        ∧ format_price x d = some (grid_round_down x d.val)) := by
  have hne : d.val ≠ 0 := ne_of_gt hd
  have hq : format_quantity x d = quantize_down x d.dp := by
    rw [format_quantity, if_neg hne]
  have hp : format_price x d = some (quantize_down x d.dp) := by
    rw [format_price, if_neg hne]
  refine ⟨hq, hp, ⟨truncQ (x * 10 ^ d.dp), rfl⟩, quantize_down_le x d.dp hx,
    sub_lt_quantize_down x d.dp hx, ?_⟩
  intro hm
  have hv : d.val = 1 / 10 ^ d.dp := by
    rw [DecimalRep.val, hm]
    norm_num
  have hgrid : grid_round_down x d.val = quantize_down x d.dp := by
    rw [hv, grid_round_down, quantize_down, one_div, div_inv_eq_mul]
    ring
  rw [hgrid, hq, hp]
  exact ⟨rfl, rfl⟩

/-- Witness for `c6_format_rounds_to_decimal_places`: on the unit-decimal
grid `0.01` (representation `⟨1, 2⟩`) the quantity `1.23` is formatted to the
grid round-down of itself. -/
theorem c6_witness :
    0 ≤ (123 / 100 : ℚ)
    ∧ 0 < DecimalRep.val ⟨1, 2⟩
    ∧ format_quantity (123 / 100) ⟨1, 2⟩ = grid_round_down (123 / 100) (DecimalRep.val ⟨1, 2⟩) :=
  ⟨by norm_num, by norm_num [DecimalRep.val],
    ((c6_format_rounds_to_decimal_places (123 / 100) ⟨1, 2⟩ (by norm_num)
      (by norm_num [DecimalRep.val])).2.2.2.2.2 rfl).1⟩

/-! ## Claim C7 -/

/-- Claim C7, as stated, is false on the code: with every SL attempt failing
the `try` body of `execute_signal` does reach its `raise RuntimeError`
(outcome `fatal_sl_creation`), but the raise is caught by the
`except Exception` at the end of `execute_signal` itself, which clears the
side and returns `False` — `execute_signal` completes with an ordinary
boolean result, so no fatal `RuntimeError` surfaces to the caller. -/
theorem c7_counterexample :
    (execute_protective_phase false (fun _ => none) (fun _ => none) .long 101 idle_aon).1 =
      AoNOutcome.fatal_sl_creation
    ∧ execute_signal_result false (fun _ => none) (fun _ => none) .long 101 idle_aon =
        (false, { idle_aon with trailing_reference_long := some 101 }, []) :=
  ⟨by decide, by decide⟩

/-- Claim C7 (amended): protective-order creation is retried at most 5 times
(only attempts 1…5 are ever consulted), with a `2·n`-second delay after the
`n`-th failed attempt that is not the last; on SL retry exhaustion nothing
is cancelled, the position marker of the side is cleared and a
`RuntimeError` is raised; on TP retry exhaustion the already-placed SL is
cancelled and cleared first, then the position marker of the side is cleared
and a `RuntimeError` is raised.  In both cases the raise is immediately
caught by the `except Exception` handler of `execute_signal` itself, which
clears the side once more and returns `False` — the failure is not fatal:
no exception escapes `execute_signal`. -/
theorem c7_retry_and_swallowed_failures :
    (∀ (α : Type) (op : ℕ → Option α), (∀ n, 1 ≤ n → n ≤ 5 → op n = none) →
        retry_operation op 5 = (none, [2, 4, 6, 8]))
    ∧ (∀ (α : Type) (op op2 : ℕ → Option α), (∀ n, 1 ≤ n → n ≤ 5 → op n = op2 n) →
        retry_operation op 5 = retry_operation op2 5)
    ∧ (∀ (α : Type) (op : ℕ → Option α) (k : ℕ) (v : α), 1 ≤ k → k ≤ 5 →
        (∀ n, 1 ≤ n → n < k → op n = none) → op k = some v →
        retry_operation op 5 = (some v, (List.range' 1 (k - 1)).map (2 * ·)))
    ∧ (∀ (sl_attempt tp_attempt : ℕ → Option AoNOrderData) (side : PositionSide)
          (entry : ℚ) (s : AllOrNothingState) (dyn : Bool),
        (∀ n, 1 ≤ n → n ≤ 5 → sl_attempt n = none) →
        execute_protective_phase dyn sl_attempt tp_attempt side entry s =
          (.fatal_sl_creation, aon_clear_position side (aon_mark_active side entry s), [])
        ∧ execute_signal_result dyn sl_attempt tp_attempt side entry s =
          (false, aon_clear_position side (aon_mark_active side entry s), []))
    ∧ (∀ (sl_attempt tp_attempt : ℕ → Option AoNOrderData) (side : PositionSide)
          (entry : ℚ) (s : AllOrNothingState) (sl_data : AoNOrderData) (ds : List ℕ),
        retry_operation sl_attempt 5 = (some sl_data, ds) →
        (∀ n, 1 ≤ n → n ≤ 5 → tp_attempt n = none) →
        execute_protective_phase false sl_attempt tp_attempt side entry s =
          (.fatal_tp_creation,
            aon_clear_position side (aon_set_sl side none
              (aon_set_sl side (some sl_data) (aon_mark_active side entry s))),
            [sl_data.orderId])
        ∧ execute_signal_result false sl_attempt tp_attempt side entry s =
          (false,
            aon_clear_position side (aon_set_sl side none
              (aon_set_sl side (some sl_data) (aon_mark_active side entry s))),
            [sl_data.orderId])) := by
  have hr : List.range' 1 5 = [1, 2, 3, 4, 5] := rfl
  refine ⟨fun α op h => retry_operation_five_fail op h, ?_, ?_, ?_, ?_⟩
  · intro α op op2 h
    simp only [retry_operation, hr, retry_loop,
      h 1 (by norm_num) (by norm_num), h 2 (by norm_num) (by norm_num),
      h 3 (by norm_num) (by norm_num), h 4 (by norm_num) (by norm_num),
      h 5 (by norm_num) (by norm_num)]
  · intro α op k v hk1 hk5 hnone hksome
    interval_cases k
    · simp [retry_operation, hr, retry_loop, hksome, List.range']
    · simp [retry_operation, hr, retry_loop, hksome, List.range',
        hnone 1 (by norm_num) (by norm_num)]
    · simp [retry_operation, hr, retry_loop, hksome, List.range',
        hnone 1 (by norm_num) (by norm_num), hnone 2 (by norm_num) (by norm_num)]
    · simp [retry_operation, hr, retry_loop, hksome, List.range',
        hnone 1 (by norm_num) (by norm_num), hnone 2 (by norm_num) (by norm_num),
        hnone 3 (by norm_num) (by norm_num)]
    · simp [retry_operation, hr, retry_loop, hksome, List.range',
        hnone 1 (by norm_num) (by norm_num), hnone 2 (by norm_num) (by norm_num),
        hnone 3 (by norm_num) (by norm_num), hnone 4 (by norm_num) (by norm_num)]
  · intro sl_attempt tp_attempt side entry s dyn h
    have hphase : execute_protective_phase dyn sl_attempt tp_attempt side entry s =
        (.fatal_sl_creation, aon_clear_position side (aon_mark_active side entry s), []) := by
      simp [execute_protective_phase, retry_operation_five_fail sl_attempt h]
    exact ⟨hphase,
      by simp [execute_signal_result, hphase, aon_clear_position_idem]⟩
  · intro sl_attempt tp_attempt side entry s sl_data ds hsl htp
    have hphase : execute_protective_phase false sl_attempt tp_attempt side entry s =
        (.fatal_tp_creation,
          aon_clear_position side (aon_set_sl side none
            (aon_set_sl side (some sl_data) (aon_mark_active side entry s))),
          [sl_data.orderId]) := by
      simp [execute_protective_phase, hsl, retry_operation_five_fail tp_attempt htp]
    exact ⟨hphase,
      by simp [execute_signal_result, hphase, aon_clear_position_idem]⟩

/-- Witness for `c7_retry_and_swallowed_failures`: the always-failing
operation is attempted 5 times with the delays 2, 4, 6, 8 seconds and no
success, and with all SL attempts failing `execute_signal` returns `False`
with the side cleared and nothing cancelled. -/
theorem c7_witness :
    retry_operation (fun _ => (none : Option AoNOrderData)) 5 = (none, [2, 4, 6, 8])
    ∧ execute_signal_result false (fun _ => none) (fun _ => none) .long 101 idle_aon =
        (false, aon_clear_position .long (aon_mark_active .long 101 idle_aon), []) :=
  ⟨c7_retry_and_swallowed_failures.1 AoNOrderData (fun _ => none) (fun _ _ _ => rfl),
    (c7_retry_and_swallowed_failures.2.2.2.1 (fun _ => none) (fun _ => none) .long 101
      idle_aon false (fun _ _ _ => rfl)).2⟩

/-! ## Claim C9 -/

/-- Claim C9 (confirmed): `BinanceAPIClient` defines no `format_price`
method, so `AllOrNothingService._format_price_with_precision` always ends in
the `AttributeError` handler and returns `None`; consequently
`_create_stop_loss` and `_create_take_profit` can never succeed, and every
accepted signal that reaches protective-order placement exhausts the SL
retries and ends in the fatal `RuntimeError` path. -/
theorem c9_format_price_missing :
    "format_price" ∉ binance_client_methods
    ∧ (∀ p : ℚ, format_price_with_precision p = none)
    ∧ (∀ (place_result : Option ℕ) (q sp : ℚ), create_stop_loss place_result q sp = none)
    ∧ (∀ (place_result : Option ℕ) (side : PositionSide) (q tp off : ℚ),
        create_take_profit place_result side q tp off = none)
    ∧ (∀ (tp_attempt : ℕ → Option AoNOrderData) (side : PositionSide) (entry : ℚ)
          (s : AllOrNothingState) (dyn : Bool) (place_fn : ℕ → Option ℕ) (q : ℚ)
          (sp_fn : ℕ → ℚ),
        execute_protective_phase dyn
            (fun n => create_stop_loss (place_fn n) q (sp_fn n)) tp_attempt side entry s =
          (.fatal_sl_creation, aon_clear_position side (aon_mark_active side entry s), [])) := by
  have hnotin : "format_price" ∉ binance_client_methods := by decide
  have hfmt : ∀ p : ℚ, format_price_with_precision p = none := fun p => by
    rw [format_price_with_precision, if_neg hnotin]
  have hsl : ∀ (place_result : Option ℕ) (q sp : ℚ),
      create_stop_loss place_result q sp = none := fun pr q sp => by
    rw [create_stop_loss, hfmt]
  refine ⟨hnotin, hfmt, hsl, ?_, ?_⟩
  · intro pr side q tp off
    rw [create_take_profit, hfmt]
  · intro tp_attempt side entry s dyn place_fn q sp_fn
    have hop : ∀ n, 1 ≤ n → n ≤ 5 →
        (fun n => create_stop_loss (place_fn n) q (sp_fn n)) n = none :=
      fun n _ _ => hsl (place_fn n) q (sp_fn n)
    simp [execute_protective_phase, retry_operation_five_fail _ hop]

/-! ## Claim C10 -/

/-- Claim C10 (confirmed): the trailing-stop adjustment derives the
replacement stop price multiplicatively from the *previous SL price* alone
(`current_sl · (1 ± SL_ADJUSTMENT_PERCENT)`, independent of entry or market
price), and `_update_stop_loss_order` cancels the existing SL before placing
the replacement — when the replacement placement fails, the state is left
untouched, so the side still records the already-cancelled SL reference as
active while no live stop loss remains on the exchange. -/
theorem c10_trailing_stop_invariant :
    (∀ (side : PositionSide) (adj : ℚ) (s : AllOrNothingState) (cur : AoNOrderData),
        aon_get_sl side s = some cur →
        execute_trailing_adjustment_target side adj s =
          some (trailing_new_sl_price side cur.stopPrice adj))
    ∧ (∀ (adj cur_price : ℚ),
        trailing_new_sl_price .long cur_price adj = cur_price * (1 + adj)
        ∧ trailing_new_sl_price .short cur_price adj = cur_price * (1 - adj))
    ∧ (∀ (side : PositionSide) (adj : ℚ) (s s2 : AllOrNothingState) (cur cur2 : AoNOrderData),
        aon_get_sl side s = some cur → aon_get_sl side s2 = some cur2 →
        cur.stopPrice = cur2.stopPrice →
        execute_trailing_adjustment_target side adj s =
          execute_trailing_adjustment_target side adj s2)
    ∧ (∀ (side : PositionSide) (cur : AoNOrderData) (new_p : ℚ) (s : AllOrNothingState),
        update_stop_loss_order side cur none new_p s = (false, s, [cur.orderId]))
    ∧ (∀ (side : PositionSide) (cur : AoNOrderData) (new_p : ℚ) (s : AllOrNothingState),
        aon_get_sl side s = some cur →
        aon_get_sl side (update_stop_loss_order side cur none new_p s).2.1 = some cur) := by
  refine ⟨?_, fun adj cp => ⟨rfl, rfl⟩, ?_, fun side cur np s => rfl, ?_⟩
  · intro side adj s cur h
    simp [execute_trailing_adjustment_target, h]
  · intro side adj s s2 cur cur2 h h2 hstop
    simp [execute_trailing_adjustment_target, h, h2, hstop]
  · intro side cur np s h
    simpa [update_stop_loss_order] using h

/-- Witness for `c10_trailing_stop_invariant` on `sample_aon`: the
adjustment target is the recorded stop 96 scaled by `1 + 0.05`, and after a
failed replacement the stale SL reference 41 is still recorded. -/
theorem c10_witness :
    aon_get_sl .long sample_aon = some { orderId := 41, stopPrice := 96, quantity := 2 }
    ∧ execute_trailing_adjustment_target .long (1 / 20) sample_aon =
        some (trailing_new_sl_price .long 96 (1 / 20))
    ∧ aon_get_sl .long
        (update_stop_loss_order .long { orderId := 41, stopPrice := 96, quantity := 2 }
          none 97 sample_aon).2.1 =
        some { orderId := 41, stopPrice := 96, quantity := 2 } :=
  ⟨rfl,
    c10_trailing_stop_invariant.1 .long (1 / 20) sample_aon
      { orderId := 41, stopPrice := 96, quantity := 2 } rfl,
    c10_trailing_stop_invariant.2.2.2.2 .long
      { orderId := 41, stopPrice := 96, quantity := 2 } 97 sample_aon rfl⟩

/-! ## Claim C8 -/

theorem computeAux_length (po pc : ℚ) (l : List Candle) :
    (computeAux po pc l).length = l.length := by
  induction l generalizing po pc with
  | nil => rfl
  | cons c rest ih => simp [computeAux, ih]

theorem compute_length (l : List Candle) : (compute l).length = l.length := by
  cases l with
  | nil => rfl
  | cons c rest => simp [compute, computeAux_length]

/-- Every row produced by the `HA_open` loop is the `mkHACandle` of its input
candle, for some carried `HA_open` value. -/
theorem computeAux_get?_shape (l : List Candle) :
    ∀ (po pc : ℚ) (i : ℕ) (e : HACandle), (computeAux po pc l).get? i = some e →
      ∃ cd ho, l.get? i = some cd ∧ e = mkHACandle cd ho (ha_close_of cd) := by
  induction l with
  | nil => intro po pc i e he; simp [computeAux] at he
  | cons c rest ih =>
      intro po pc i e he
      cases i with
      | zero =>
          refine ⟨c, (po + pc) / 2, rfl, ?_⟩
          simpa [computeAux] using he.symm
      | succ n =>
          obtain ⟨cd, ho, h1, h2⟩ := ih ((po + pc) / 2) (ha_close_of c) n e he
          exact ⟨cd, ho, h1, h2⟩

/-- Consecutive rows of the `HA_open` loop satisfy the recurrence
`HA_open[i+1] = (HA_open[i] + HA_close[i]) / 2`. -/
theorem computeAux_consecutive (l : List Candle) :
    ∀ (po pc : ℚ) (i : ℕ) (e e2 : HACandle),
      (computeAux po pc l).get? i = some e →
      (computeAux po pc l).get? (i + 1) = some e2 →
      e2.HA_open = (e.HA_open + e.HA_close) / 2 := by
  induction l with
  | nil => intro po pc i e e2 he _; simp [computeAux] at he
  | cons c rest ih =>
      intro po pc i e e2 he he2
      cases i with
      | zero =>
          have hE : e = mkHACandle c ((po + pc) / 2) (ha_close_of c) := by
            simpa [computeAux] using he.symm
          cases rest with
          | nil => simp [computeAux] at he2
          | cons c2 rest2 =>
              have hE2 : e2 =
                  mkHACandle c2 (((po + pc) / 2 + ha_close_of c) / 2) (ha_close_of c2) := by
                simpa [computeAux] using he2.symm
              rw [hE, hE2]
              rfl
      | succ n => exact ih ((po + pc) / 2) (ha_close_of c) n e e2 he he2

/-- Claim C8 (confirmed): for every non-empty candle sequence the
Heikin-Ashi transform satisfies `HA_close[i] = (o+h+l+c)/4`,
`HA_open[0] = (o[0]+c[0])/2`, `HA_open[i+1] = (HA_open[i]+HA_close[i])/2`,
`HA_high[i] = max(high[i], HA_open[i], HA_close[i])`,
`HA_low[i] = min(low[i], HA_open[i], HA_close[i])`, and the candle color is
green iff `HA_close > HA_open`, red iff `<`, doji iff equal. -/
theorem c8_heikin_ashi (df : List Candle) (hne : df ≠ []) :
    (compute df).length = df.length
    ∧ (∀ (i : ℕ) (e : HACandle) (cd : Candle),
        (compute df).get? i = some e → df.get? i = some cd →
        e.HA_close = (cd.open_ + cd.high + cd.low + cd.close) / 4)
    ∧ (∀ (e : HACandle) (cd : Candle),
        (compute df).get? 0 = some e → df.get? 0 = some cd →
        e.HA_open = (cd.open_ + cd.close) / 2)
    ∧ (∀ (i : ℕ) (e e2 : HACandle),
        (compute df).get? i = some e → (compute df).get? (i + 1) = some e2 →
        e2.HA_open = (e.HA_open + e.HA_close) / 2)
    ∧ (∀ (i : ℕ) (e : HACandle) (cd : Candle),
        (compute df).get? i = some e → df.get? i = some cd →
        e.HA_high = max cd.high (max e.HA_open e.HA_close)
        ∧ e.HA_low = min cd.low (min e.HA_open e.HA_close))
    ∧ (∀ o c : ℚ,
        (get_candle_color o c = .green ↔ o < c)
        ∧ (get_candle_color o c = .red ↔ c < o)
        ∧ (get_candle_color o c = .doji ↔ o = c)) := by
  obtain ⟨c, rest, rfl⟩ : ∃ c rest, df = c :: rest := by
    cases df with
    | nil => exact absurd rfl hne
    | cons c rest => exact ⟨c, rest, rfl⟩
  have hc : compute (c :: rest) = computeAux c.open_ c.close (c :: rest) := rfl
  refine ⟨compute_length _, ?_, ?_, ?_, ?_, ?_⟩
  · intro i e cd he hcd
    rw [hc] at he
    obtain ⟨cd2, ho, h1, h2⟩ := computeAux_get?_shape (c :: rest) c.open_ c.close i e he
    rw [h1] at hcd
    cases hcd
    rw [h2]
    rfl
  · intro e cd he hcd
    rw [hc] at he
    have hE : e = mkHACandle c ((c.open_ + c.close) / 2) (ha_close_of c) := by
      simpa [computeAux] using he.symm
    have hcd2 : cd = c := by simpa using hcd.symm
    rw [hE, hcd2]
    rfl
  · intro i e e2 he he2
    rw [hc] at he he2
    exact computeAux_consecutive (c :: rest) c.open_ c.close i e e2 he he2
  · intro i e cd he hcd
    rw [hc] at he
    obtain ⟨cd2, ho, h1, h2⟩ := computeAux_get?_shape (c :: rest) c.open_ c.close i e he
    rw [h1] at hcd
    cases hcd
    rw [h2]
    exact ⟨max_comm _ _, min_comm _ _⟩
  · intro o cl
    unfold get_candle_color
    split_ifs with h1 h2
    · exact ⟨⟨fun _ => h1, fun _ => rfl⟩,
        ⟨fun hc2 => absurd hc2 (by decide), fun hlt => absurd h1 (lt_asymm hlt)⟩,
        ⟨fun hc2 => absurd hc2 (by decide), fun heq => absurd (heq ▸ h1) (lt_irrefl _)⟩⟩
    · exact ⟨⟨fun hc2 => absurd hc2 (by decide), fun hlt => absurd hlt h1⟩,
        ⟨fun _ => h2, fun _ => rfl⟩,
        ⟨fun hc2 => absurd hc2 (by decide), fun heq => absurd (heq ▸ h2) (lt_irrefl _)⟩⟩
    · have heq : o = cl := le_antisymm (not_lt.mp h2) (not_lt.mp h1)
      exact ⟨⟨fun hc2 => absurd hc2 (by decide), fun hlt => absurd hlt h1⟩,
        ⟨fun hc2 => absurd hc2 (by decide), fun hlt => absurd hlt h2⟩,
        ⟨fun _ => heq, fun _ => rfl⟩⟩

/-- Witness for `c8_heikin_ashi` on a concrete two-candle sequence: the
second row HA_open follows the recurrence from the first row. -/
theorem c8_witness :
    ([{ open_ := 2, high := 4, low := 0, close := 2 },
      { open_ := 4, high := 6, low := 2, close := 6 }] : List Candle) ≠ []
    ∧ (compute [{ open_ := 2, high := 4, low := 0, close := 2 },
          { open_ := 4, high := 6, low := 2, close := 6 }]).get? 0 =
        some (mkHACandle { open_ := 2, high := 4, low := 0, close := 2 } ((2 + 2) / 2)
          (ha_close_of { open_ := 2, high := 4, low := 0, close := 2 }))
    ∧ (compute [{ open_ := 2, high := 4, low := 0, close := 2 },
          { open_ := 4, high := 6, low := 2, close := 6 }]).get? 1 =
        some (mkHACandle { open_ := 4, high := 6, low := 2, close := 6 }
          (((2 + 2) / 2 + ha_close_of { open_ := 2, high := 4, low := 0, close := 2 }) / 2)
          (ha_close_of { open_ := 4, high := 6, low := 2, close := 6 }))
    ∧ (mkHACandle { open_ := 4, high := 6, low := 2, close := 6 }
          (((2 + 2) / 2 + ha_close_of { open_ := 2, high := 4, low := 0, close := 2 }) / 2)
          (ha_close_of { open_ := 4, high := 6, low := 2, close := 6 })).HA_open =
        ((mkHACandle { open_ := 2, high := 4, low := 0, close := 2 } ((2 + 2) / 2)
            (ha_close_of { open_ := 2, high := 4, low := 0, close := 2 })).HA_open +
          (mkHACandle { open_ := 2, high := 4, low := 0, close := 2 } ((2 + 2) / 2)
            (ha_close_of { open_ := 2, high := 4, low := 0, close := 2 })).HA_close) / 2 :=
  ⟨by decide, rfl, rfl,
    (c8_heikin_ashi
        [{ open_ := 2, high := 4, low := 0, close := 2 },
         { open_ := 4, high := 6, low := 2, close := 6 }]
        (by decide)).2.2.2.1 0 _ _ rfl rfl⟩

end TradingBot
